import Mathlib

/-!
Verification of the task lifecycle and reminder scheduling engine of the
telegram-task-bot repository (source files `task_bot.py` and
`telegram_task_bot.py`).

The Python code is shallowly embedded as follows.

* Instants are natural numbers of seconds; one civil day is 86400 seconds.
  `datetime.utcnow()` values become a parameter `now : Nat`.
* `get_pst_now` subtracts the fixed 7-hour offset (25200 seconds) that
  `task_bot.py` hard-codes; `_calculate_next_run` in `task_bot.py` converts
  the PST civil result back to UTC by adding the same offset before storage.
  `telegram_task_bot.py` performs the identical civil computation with no
  offset (`datetime.now()` used directly); `calculateNextRun` is that shared
  civil computation and `calculateNextRunTB` is the `task_bot.py` wrapper.
* The SQLite rows of the `tasks` and `pending_reminders` tables become the
  structures `Task` and `Reminder`; the tables become lists of rows.
  `pending_reminders` has no UNIQUE constraint besides the autoincrement
  primary key, so `INSERT OR REPLACE` behaves as a plain INSERT; the model
  appends a fresh row whose id is drawn from the `nextReminderId` counter.
  SQL `UPDATE ... WHERE id = ?` becomes a map over rows with matching id and
  `DELETE ... WHERE ...` becomes a filter.
* The in-memory dict `self.pending_responses`, keyed by the f-strings
  `f"{user_id}_{chat_id}"` (or `"unknown_{chat_id}"` when the stored user id
  is falsy), becomes an association list over the key type `PKey`; the two
  string shapes never collide, so the structured key is faithful.
* Each `await bot.send_message(...)` either succeeds or raises; a raise
  aborts the enclosing try-block, so the code after the send does not run.
  The send outcome is supplied by boolean oracles (`ok : Bool` per call site,
  or `gwT`/`gwRem : Nat → Bool` indexed by task id / reminder row id for the
  scheduler tick).  Successfully delivered messages are collected in a
  `List Msg` holding the data the Python message text is built from.
-/

namespace TaskBot

/-- Task frequency; `/createtask` validates the string to `once` or `daily`. -/
inductive Frequency where
  | once
  | daily
deriving DecidableEq, Repr

/-- A user response, the `yes`/`no` payload of the callback data. -/
inductive Resp where
  | yes
  | no
deriving DecidableEq, Repr

/-- A row of the `tasks` table (fields relevant to scheduling).
`scheduled_time` is stored parsed as `hour`/`minute`. -/
structure Task where
  id : Nat
  title : String
  username : String
  userId : Nat
  chatId : Nat
  hour : Nat
  minute : Nat
  frequency : Frequency
  isActive : Bool
  lastRun : Option Nat
  nextRun : Option Nat
deriving DecidableEq, Repr

/-- A row of the `pending_reminders` table. -/
structure Reminder where
  id : Nat
  taskId : Nat
  userId : Nat
  username : String
  chatId : Nat
  taskTitle : String
  frequency : Frequency
  nextReminder : Nat
  reminderCount : Nat
  maxReminders : Nat
deriving DecidableEq, Repr

/-- The value stored in the `self.pending_responses` dict. -/
structure PendingInfo where
  taskId : Nat
  title : String
  username : String
  userId : Nat
  chatId : Nat
  frequency : Frequency
deriving DecidableEq, Repr

/-- A key of the `self.pending_responses` dict: `f"{user_id}_{chat_id}"`,
or `f"unknown_{chat_id}"` when the task row's user id is falsy.  The two
string shapes cannot collide (a decimal integer never reads `unknown`). -/
inductive PKey where
  | user (uid chatId : Nat)
  | unknown (chatId : Nat)
deriving DecidableEq, Repr

/-- A row of the append-only `task_responses` table. -/
structure ResponseLog where
  taskId : Nat
  userId : Nat
  chatId : Nat
  resp : Resp
deriving DecidableEq, Repr

/-- A successfully delivered gateway message, carrying the data the Python
message text is built from. -/
inductive Msg where
  | initialReminder (taskId chatId : Nat)
  | followup (reminderId taskId chatId count : Nat)
  | finalNotice (reminderId chatId : Nat)
deriving DecidableEq, Repr

/-- The persisted plus in-memory state of the bot: the `tasks`,
`pending_reminders` and `task_responses` tables, the in-memory
`pending_responses` dict, and the autoincrement counter that supplies
fresh `pending_reminders` primary keys. -/
structure BotState where
  tasks : List Task
  reminders : List Reminder
  pending : List (PKey × PendingInfo)
  responses : List ResponseLog
  nextReminderId : Nat
deriving DecidableEq, Repr

/-- Outcome reported to the responding user by `_handle_callback_query`. -/
inductive Outcome where
  | expired
  | mismatch
  | applied (r : Resp)
deriving DecidableEq, Repr

/-- `get_pst_now` of `task_bot.py`: UTC shifted by the hard-coded
`timedelta(hours=-7)` (25200 seconds). -/
def getPstNow (utcNow : Nat) : Nat := utcNow - 25200

/-- `now.replace(hour=hour, minute=minute, second=0, microsecond=0)`:
today's midnight plus the given time of day, in seconds. -/
def replaceTime (now hour minute : Nat) : Nat :=
  now / 86400 * 86400 + (hour * 3600 + minute * 60)

/-- `_calculate_next_run` of `telegram_task_bot.py` (also the shared civil
core of the `task_bot.py` variant): today at the scheduled time if that has
not passed, otherwise tomorrow.  The `once` and `daily` branches of the
Python `if`/`elif` are verbatim identical. -/
def calculateNextRun (hour minute : Nat) (freq : Frequency) (now : Nat) : Nat :=
  match freq with
  | .once =>
    let nextRun := replaceTime now hour minute
    if nextRun ≤ now then nextRun + 86400 else nextRun
  | .daily =>
    let nextRun := replaceTime now hour minute
    if nextRun ≤ now then nextRun + 86400 else nextRun

/-- `_calculate_next_run` of `task_bot.py`: the same computation carried out
on `get_pst_now()`, with the result converted back to UTC storage time by
adding the fixed 7-hour offset. -/
def calculateNextRunTB (hour minute : Nat) (freq : Frequency) (utcNow : Nat) : Nat :=
  let nowPst := getPstNow utcNow
  (match freq with
   | .once =>
     let nextRunPst := replaceTime nowPst hour minute
     if nextRunPst ≤ nowPst then nextRunPst + 86400 else nextRunPst
   | .daily =>
     let nextRunPst := replaceTime nowPst hour minute
     if nextRunPst ≤ nowPst then nextRunPst + 86400 else nextRunPst) + 25200

/-- C2: for every time-of-day, frequency and current moment, the resolver
returns today's instant at that time-of-day when that instant is strictly
after `now`, and otherwise tomorrow's instant; in particular when `now`
equals the time-of-day instant exactly, the result is tomorrow.  The
`task_bot.py` variant is the same computation on PST civil time shifted
back by the storage offset. -/
theorem calculateNextRun_spec (hour minute : Nat) (freq : Frequency) (now : Nat) :
    (now < replaceTime now hour minute →
      calculateNextRun hour minute freq now = replaceTime now hour minute)
    ∧ (replaceTime now hour minute ≤ now →
      calculateNextRun hour minute freq now = replaceTime now hour minute + 86400)
    ∧ (now = replaceTime now hour minute →
      calculateNextRun hour minute freq now = replaceTime now hour minute + 86400)
    ∧ calculateNextRunTB hour minute freq now
        = calculateNextRun hour minute freq (getPstNow now) + 25200 := by
  refine ⟨?_, ?_, ?_, ?_⟩
  · intro h
    cases freq <;> simp [calculateNextRun, Nat.not_le.mpr h]
  · intro h
    cases freq <;> simp [calculateNextRun, h]
  · intro h
    cases freq <;> simp [calculateNextRun, h.ge]
  · cases freq <;> rfl

/-- Witness for C2 at concrete inputs: time-of-day 09:00 at now = 08:00 of
day 0 gives today 09:00; at now = 10:00 gives tomorrow 09:00; at now exactly
09:00 gives tomorrow 09:00. -/
theorem calculateNextRun_spec_witness :
    calculateNextRun 9 0 Frequency.once 28800 = 32400
    ∧ calculateNextRun 9 0 Frequency.once 36000 = 32400 + 86400
    ∧ calculateNextRun 9 0 Frequency.daily 32400 = 32400 + 86400 := by
  refine ⟨?_, ?_, ?_⟩
  · exact (calculateNextRun_spec 9 0 Frequency.once 28800).1 (by decide)
  · exact (calculateNextRun_spec 9 0 Frequency.once 36000).2.1 (by decide)
  · exact (calculateNextRun_spec 9 0 Frequency.daily 32400).2.2.1 (by decide)

/-- Dict lookup `self.pending_responses.get(key)` on the association list. -/
def lookupPending (ps : List (PKey × PendingInfo)) (k : PKey) : Option PendingInfo :=
  (ps.find? fun e => decide (e.1 = k)).map (·.2)

/-- Dict assignment `self.pending_responses[key] = info`. -/
def putPending (ps : List (PKey × PendingInfo)) (k : PKey) (v : PendingInfo) :
    List (PKey × PendingInfo) :=
  ps.filter (fun e => decide (e.1 ≠ k)) ++ [(k, v)]

/-- Dict deletion `del self.pending_responses[key]`. -/
def removePending (ps : List (PKey × PendingInfo)) (k : PKey) :
    List (PKey × PendingInfo) :=
  ps.filter fun e => decide (e.1 ≠ k)

/-- Membership test `key in self.pending_responses`. -/
def containsPending (ps : List (PKey × PendingInfo)) (k : PKey) : Bool :=
  ps.any fun e => decide (e.1 = k)

/-- The key built in `_send_task_reminder`:
`f"{user_id}_{chat_id}" if user_id else f"unknown_{chat_id}"` (a `None` or
`0` user id is falsy). -/
def pendingTaskKey (userId chatId : Nat) : PKey :=
  if userId = 0 then PKey.unknown chatId else PKey.user userId chatId

/-- The `WHERE is_active = 1 AND next_run <= ?` selection of due tasks
(an SQL NULL `next_run` compares false). -/
def dueTask (now : Nat) (t : Task) : Bool :=
  t.isActive && match t.nextRun with
    | some nr => decide (nr ≤ now)
    | none => false

/-- `_cleanup_stale_reminders` of `task_bot.py`: delete every
`pending_reminders` row whose `f"{user_id}_{chat_id}"` key is present in
`self.pending_responses`. -/
def cleanupStaleReminders (s : BotState) : BotState :=
  { s with reminders := s.reminders.filter fun r =>
      !(containsPending s.pending (PKey.user r.userId r.chatId)) }

/-- `_update_next_run` of `task_bot.py`: a non-daily task is marked
inactive and stale reminders are cleaned up; a daily task gets its
`next_run` recomputed from its stored `scheduled_time` and its `last_run`
set to the current timestamp. -/
def updateNextRun (taskId : Nat) (freq : Frequency) (now : Nat) (s : BotState) :
    BotState :=
  match freq with
  | .once =>
    cleanupStaleReminders
      { s with tasks := s.tasks.map fun t =>
          if t.id = taskId then { t with isActive := false } else t }
  | .daily =>
    match s.tasks.find? (fun t => decide (t.id = taskId)) with
    | none => s
    | some t =>
      let nr := calculateNextRunTB t.hour t.minute Frequency.daily now
      { s with tasks := s.tasks.map fun t2 =>
          if t2.id = taskId then
            { t2 with nextRun := some nr, lastRun := some now } else t2 }

/-- `_send_task_reminder` of `task_bot.py`.  On gateway failure the raised
exception is caught and nothing is persisted.  On success: the assignee is
put into `pending_responses`; a fresh `pending_reminders` row is inserted
(`INSERT OR REPLACE` is a plain insert, count 0, next reminder in 2 minutes,
default maximum 30); a daily task's `next_run` is set to now plus one day
and its `last_run` to now, while a one-time task is marked inactive with
`last_run` set to now. -/
def sendTaskReminder (ok : Bool) (taskId : Nat) (title username : String)
    (userId chatId : Nat) (freq : Frequency) (now : Nat) (s : BotState) :
    BotState × List Msg :=
  if ok then
    let key := pendingTaskKey userId chatId
    let info : PendingInfo :=
      ⟨taskId, title, username, userId, chatId, freq⟩
    let s1 : BotState := { s with pending := putPending s.pending key info }
    let s2 : BotState := { s1 with
      reminders := s1.reminders ++
        [(⟨s1.nextReminderId, taskId, userId, username, chatId, title, freq,
          now + 120, 0, 30⟩ : Reminder)],
      nextReminderId := s1.nextReminderId + 1 }
    let s3 : BotState :=
      match freq with
      | .daily =>
        { s2 with tasks := s2.tasks.map fun t =>
            if t.id = taskId then
              { t with nextRun := some (now + 86400), lastRun := some now }
            else t }
      | .once =>
        { s2 with tasks := s2.tasks.map fun t =>
            if t.id = taskId then
              { t with isActive := false, lastRun := some now }
            else t }
    (s3, [Msg.initialReminder taskId chatId])
  else (s, [])

/-- `_send_followup_reminder` of `task_bot.py`.  On gateway failure nothing
is persisted.  On success the row's `next_reminder` is moved 2 minutes ahead
and its count becomes the snapshot count plus one; `pending_responses` is
deliberately not touched. -/
def sendFollowupReminder (ok : Bool) (reminderId taskId : Nat)
    (chatId count : Nat) (now : Nat) (s : BotState) : BotState × List Msg :=
  if ok then
    ({ s with reminders := s.reminders.map fun x =>
        if x.id = reminderId then
          { x with nextReminder := now + 120, reminderCount := count + 1 }
        else x },
     [Msg.followup reminderId taskId chatId count])
  else (s, [])

/-- The body of the due-reminder loop in `check_scheduled_tasks` of
`task_bot.py`, processing one snapshot row: at or above the maximum count
the row is deleted first and the final notice then attempted (a failure is
only logged); below the maximum, a row whose assignee key is present in
`pending_responses` is deleted and skipped, otherwise the follow-up is
sent. -/
def processDueReminder (gwRem : Nat → Bool) (now : Nat)
    (acc : BotState × List Msg) (r : Reminder) : BotState × List Msg :=
  if r.maxReminders ≤ r.reminderCount then
    if gwRem r.id then
      ({ acc.1 with
          reminders := acc.1.reminders.filter fun x => decide (x.id ≠ r.id) },
       acc.2 ++ [Msg.finalNotice r.id r.chatId])
    else
      ({ acc.1 with
          reminders := acc.1.reminders.filter fun x => decide (x.id ≠ r.id) },
       acc.2)
  else
    if containsPending acc.1.pending (PKey.user r.userId r.chatId) then
      ({ acc.1 with
          reminders := acc.1.reminders.filter fun x => decide (x.id ≠ r.id) },
       acc.2)
    else
      ((sendFollowupReminder (gwRem r.id) r.id r.taskId r.chatId
          r.reminderCount now acc.1).1,
       acc.2 ++ (sendFollowupReminder (gwRem r.id) r.id r.taskId r.chatId
          r.reminderCount now acc.1).2)

/-- One iteration of the due-task loop of `check_scheduled_tasks`: the due
snapshot row `t` gets its initial notification attempt (`gwT t.id` is the
gateway outcome for that send). -/
def tickTaskStep (gwT : Nat → Bool) (now : Nat) (acc : BotState × List Msg)
    (t : Task) : BotState × List Msg :=
  let r := sendTaskReminder (gwT t.id) t.id t.title t.username t.userId
    t.chatId t.frequency now acc.1
  (r.1, acc.2 ++ r.2)

/-- `check_scheduled_tasks` of `task_bot.py`: one scheduler tick.  Phase 1
snapshots the due tasks and sends each its initial notification; phase 2
snapshots the then-due reminder rows and processes each. -/
def checkScheduledTasks (gwT gwRem : Nat → Bool) (now : Nat) (s : BotState) :
    BotState × List Msg :=
  let due := s.tasks.filter (dueTask now)
  let p1 := due.foldl (tickTaskStep gwT now) (s, ([] : List Msg))
  let dueRem := p1.1.reminders.filter fun r => decide (r.nextReminder ≤ now)
  dueRem.foldl (processDueReminder gwRem now) p1

/-- The arguments of one scheduler tick: the two gateway oracles and the
tick instant. -/
structure TickArgs where
  gwT : Nat → Bool
  gwRem : Nat → Bool
  now : Nat

/-- One scheduler tick applied to an accumulated state and message log. -/
def tickStep (acc : BotState × List Msg) (a : TickArgs) : BotState × List Msg :=
  let r := checkScheduledTasks a.gwT a.gwRem a.now acc.1
  (r.1, acc.2 ++ r.2)

/-- A sequence of scheduler ticks, accumulating the delivered messages. -/
def applyTicks (ticks : List TickArgs) (s : BotState) : BotState × List Msg :=
  ticks.foldl tickStep (s, ([] : List Msg))

/-- The part of `_handle_callback_query` after the pending info has been
resolved: verify the task id, append the response log row, then apply the
`yes` branch (drop the pending entry, delete every reminder row of this
user and chat, update the task via `_update_next_run`) or the `no` branch
(insert a fresh reminder row at count 1 due in 2 minutes, leaving
`pending_responses` untouched). -/
def applyResponse (u c taskId : Nat) (resp : Resp) (now : Nat)
    (info : PendingInfo) (s : BotState) : BotState × Outcome :=
  if info.taskId ≠ taskId then (s, Outcome.mismatch)
  else
    let s1 : BotState :=
      { s with responses := s.responses ++ [(⟨taskId, u, c, resp⟩ : ResponseLog)] }
    match resp with
    | .yes =>
      let s2 : BotState := { s1 with
        pending := removePending s1.pending (PKey.user u c),
        reminders := s1.reminders.filter fun r =>
          decide (¬(r.userId = u ∧ r.chatId = c)) }
      (updateNextRun taskId info.frequency now s2, Outcome.applied Resp.yes)
    | .no =>
      ({ s1 with
        reminders := s1.reminders ++
          [(⟨s1.nextReminderId, taskId, u, info.username, c, info.title,
            info.frequency, now + 120, 1, 30⟩ : Reminder)],
        nextReminderId := s1.nextReminderId + 1 },
       Outcome.applied Resp.no)

/-- `_handle_callback_query` of `task_bot.py` for a button press of user `u`
in chat `c` carrying task id `taskId` and answer `resp`.  The pending info
is looked up under `f"{u}_{c}"`; if absent, it is reconstructed from the
first matching `pending_reminders` row (and put back into the dict), and if
there is none the press is answered as expired. -/
def handleCallbackQuery (u c taskId : Nat) (resp : Resp) (now : Nat)
    (s : BotState) : BotState × Outcome :=
  let key := PKey.user u c
  match lookupPending s.pending key with
  | some info => applyResponse u c taskId resp now info s
  | none =>
    match s.reminders.find?
        (fun r => decide (r.taskId = taskId ∧ r.userId = u ∧ r.chatId = c)) with
    | none => (s, Outcome.expired)
    | some r =>
      let info : PendingInfo := ⟨taskId, r.taskTitle, r.username, u, c, r.frequency⟩
      applyResponse u c taskId resp now info
        { s with pending := putPending s.pending key info }

/-- Looking a key up right after storing it under that key yields the stored
value. -/
theorem lookupPending_put_self (ps : List (PKey × PendingInfo)) (k : PKey)
    (v : PendingInfo) : lookupPending (putPending ps k v) k = some v := by
  have h1 : (ps.filter fun e => decide (e.1 ≠ k)).find?
      (fun e => decide (e.1 = k)) = none := by
    rw [List.find?_eq_none]
    intro e he
    have h2 := (List.mem_filter.mp he).2
    simp only [decide_eq_true_eq] at h2 ⊢
    exact h2
  simp [lookupPending, putPending, List.find?_append, h1, List.find?]

/-- Looking a key up right after deleting it yields nothing. -/
theorem lookupPending_remove_self (ps : List (PKey × PendingInfo)) (k : PKey) :
    lookupPending (removePending ps k) k = none := by
  have h1 : (ps.filter fun e => decide (e.1 ≠ k)).find?
      (fun e => decide (e.1 = k)) = none := by
    rw [List.find?_eq_none]
    intro e he
    have h2 := (List.mem_filter.mp he).2
    simp only [decide_eq_true_eq] at h2 ⊢
    exact h2
  simp [lookupPending, removePending, h1]

/-- `_update_next_run` never touches the in-memory `pending_responses`. -/
theorem updateNextRun_pending (taskId : Nat) (freq : Frequency) (now : Nat)
    (s : BotState) : (updateNextRun taskId freq now s).pending = s.pending := by
  cases freq with
  | once => simp [updateNextRun, cleanupStaleReminders]
  | daily =>
    cases h : s.tasks.find? (fun t => decide (t.id = taskId)) with
    | none => simp [updateNextRun, h]
    | some t => simp [updateNextRun, h]

/-- `_update_next_run` never inserts reminder rows: every surviving row was
already present. -/
theorem updateNextRun_reminders_mem (taskId : Nat) (freq : Frequency)
    (now : Nat) (s : BotState) :
    ∀ r ∈ (updateNextRun taskId freq now s).reminders, r ∈ s.reminders := by
  intro r hr
  cases freq with
  | once =>
    simp only [updateNextRun, cleanupStaleReminders] at hr
    exact (List.mem_filter.mp hr).1
  | daily =>
    cases h : s.tasks.find? (fun t => decide (t.id = taskId)) with
    | none => simpa [updateNextRun, h] using hr
    | some t => simpa [updateNextRun, h] using hr

/-- C10: in `task_bot.py`, a DONE (`yes`) response deletes every
`pending_reminders` row keyed by the same user and chat — regardless of
which task the row belongs to, not only the row of the answered task. -/
theorem yes_deletes_all_user_chat_reminders
    (s : BotState) (u c taskId now : Nat) (info : PendingInfo)
    (hlk : lookupPending s.pending (PKey.user u c) = some info)
    (hti : info.taskId = taskId) :
    ∀ r ∈ (handleCallbackQuery u c taskId Resp.yes now s).1.reminders,
      ¬(r.userId = u ∧ r.chatId = c) := by
  intro r hr
  simp only [handleCallbackQuery, hlk, applyResponse, hti, ne_eq,
    not_true_eq_false, if_false, ite_false] at hr
  have hr2 := updateNextRun_reminders_mem _ _ _ _ r hr
  simp only [List.mem_filter, decide_eq_true_eq] at hr2
  exact hr2.2

/-- Concrete state for the C10 witness: two reminder rows of two different
tasks, both for user 5 in chat 9, with the pending entry pointing at task 1. -/
def c10state : BotState :=
  { tasks := [],
    reminders :=
      [⟨1, 1, 5, "alice", 9, "task one", Frequency.once, 100, 0, 30⟩,
       ⟨2, 2, 5, "alice", 9, "task two", Frequency.daily, 100, 3, 30⟩],
    pending := [(PKey.user 5 9, ⟨1, "task one", "alice", 5, 9, Frequency.once⟩)],
    responses := [],
    nextReminderId := 3 }

/-- Witness for C10: answering DONE for task 1 leaves no reminder row keyed
by user 5 and chat 9 — the row of the unrelated task 2 is deleted too. -/
theorem yes_deletes_all_user_chat_reminders_witness :
    lookupPending c10state.pending (PKey.user 5 9)
      = some ⟨1, "task one", "alice", 5, 9, Frequency.once⟩
    ∧ (handleCallbackQuery 5 9 1 Resp.yes 200 c10state).1.reminders.filter
        (fun r => decide (r.userId = 5 ∧ r.chatId = 9)) = [] := by
  refine ⟨by decide, List.filter_eq_nil_iff.mpr ?_⟩
  intro r hr
  simpa using yes_deletes_all_user_chat_reminders c10state 5 9 1 200
    ⟨1, "task one", "alice", 5, 9, Frequency.once⟩ (by decide) rfl r hr

/-- C8: applying the same DONE (`yes`) response twice yields exactly the end
state of applying it once — tasks, reminder rows, pending index, response
log and counter all included — and the second application reports the
already-resolved ("expired or already been responded to") outcome with no
side effects. -/
theorem done_idempotent
    (s : BotState) (u c taskId now now2 : Nat) (info : PendingInfo)
    (hlk : lookupPending s.pending (PKey.user u c) = some info)
    (hti : info.taskId = taskId) :
    handleCallbackQuery u c taskId Resp.yes now2
        (handleCallbackQuery u c taskId Resp.yes now s).1
      = ((handleCallbackQuery u c taskId Resp.yes now s).1, Outcome.expired) := by
  have h1 : (handleCallbackQuery u c taskId Resp.yes now s).1
      = updateNextRun taskId info.frequency now
          { s with
            responses := s.responses ++ [⟨taskId, u, c, Resp.yes⟩],
            pending := removePending
              ({ s with responses := s.responses ++ [⟨taskId, u, c, Resp.yes⟩]
                : BotState }).pending (PKey.user u c),
            reminders := s.reminders.filter fun r =>
              decide (¬(r.userId = u ∧ r.chatId = c)) } := by
    simp only [handleCallbackQuery, hlk, applyResponse, hti, ne_eq,
      not_true_eq_false, if_false, ite_false]
  set s1 := (handleCallbackQuery u c taskId Resp.yes now s).1 with hs1
  have hpend : lookupPending s1.pending (PKey.user u c) = none := by
    rw [h1, updateNextRun_pending]
    exact lookupPending_remove_self _ _
  have hfind : s1.reminders.find?
      (fun r => decide (r.taskId = taskId ∧ r.userId = u ∧ r.chatId = c))
      = none := by
    rw [List.find?_eq_none]
    intro r hr
    rw [h1] at hr
    have hr2 := updateNextRun_reminders_mem _ _ _ _ r hr
    have hr3 := (List.mem_filter.mp hr2).2
    simp only [decide_eq_true_eq] at hr3 ⊢
    intro hcontra
    exact hr3 ⟨hcontra.2.1, hcontra.2.2⟩
  simp only [handleCallbackQuery, hpend, hfind]

/-- Concrete state for the C8 witness: user 5 in chat 9 owes a response for
the once task 1, which is still active with a live reminder row. -/
def c8state : BotState :=
  { tasks :=
      [⟨1, "task one", "alice", 5, 9, 9, 0, Frequency.once, true,
        some 32400, some 32400⟩],
    reminders := [⟨1, 1, 5, "alice", 9, "task one", Frequency.once, 100, 0, 30⟩],
    pending := [(PKey.user 5 9, ⟨1, "task one", "alice", 5, 9, Frequency.once⟩)],
    responses := [],
    nextReminderId := 2 }

/-- Witness for C8 at a concrete state: the replayed DONE press leaves the
state fixed and reports the already-resolved outcome. -/
theorem done_idempotent_witness :
    lookupPending c8state.pending (PKey.user 5 9)
      = some ⟨1, "task one", "alice", 5, 9, Frequency.once⟩
    ∧ handleCallbackQuery 5 9 1 Resp.yes 400
        (handleCallbackQuery 5 9 1 Resp.yes 300 c8state).1
      = ((handleCallbackQuery 5 9 1 Resp.yes 300 c8state).1, Outcome.expired) :=
  ⟨by decide,
   done_idempotent c8state 5 9 1 300 400
     ⟨1, "task one", "alice", 5, 9, Frequency.once⟩ (by decide) rfl⟩

/-- C4 (amended): in `task_bot.py`, sending the initial notification of a
ONCE task does change the task row — `is_active` is set to 0 and `last_run`
to now — alongside creating the reminder row; the NOTIFIED state of a ONCE
task therefore has `is_active = 0`, not ACTIVE. -/
theorem once_notification_deactivates (taskId : Nat) (title username : String)
    (userId chatId now : Nat) (s : BotState) :
    (∀ t ∈ (sendTaskReminder true taskId title username userId chatId
        Frequency.once now s).1.tasks,
      t.id = taskId → t.isActive = false ∧ t.lastRun = some now)
    ∧ (sendTaskReminder true taskId title username userId chatId
        Frequency.once now s).1.reminders
      = s.reminders ++
        [⟨s.nextReminderId, taskId, userId, username, chatId, title,
          Frequency.once, now + 120, 0, 30⟩] := by
  constructor
  · intro t ht htid
    simp only [sendTaskReminder, if_true, List.mem_map] at ht
    obtain ⟨t', ht', rfl⟩ := ht
    by_cases h : t'.id = taskId
    · simp [h]
    · simp only [h, if_false, ite_false] at htid ⊢
  · rfl

/-- Concrete state for the C4 counterexample: an active once task due at
09:00 of day 0. -/
def c4state : BotState :=
  { tasks :=
      [⟨1, "task one", "alice", 5, 9, 9, 0, Frequency.once, true, none,
        some 32400⟩],
    reminders := [],
    pending := [],
    responses := [],
    nextReminderId := 1 }

/-- Counterexample to C4 as stated: the tick that sends the initial
notification of the once task flips its `is_active` to false (and writes
`last_run`), so the task is not still ACTIVE afterwards. -/
theorem once_notification_counterexample :
    (checkScheduledTasks (fun _ => true) (fun _ => true) 32400 c4state).1.tasks
      = [⟨1, "task one", "alice", 5, 9, 9, 0, Frequency.once, false,
          some 32400, some 32400⟩]
    ∧ (checkScheduledTasks (fun _ => true) (fun _ => true) 32400
        c4state).1.reminders
      = [⟨1, 1, 5, "alice", 9, "task one", Frequency.once, 32520, 0, 30⟩] := by
  decide

/-- Witness for the amended C4 at a concrete input: no active row with id 1
survives the initial notification, and the inserted reminder row is
exactly the fresh one. -/
theorem once_notification_deactivates_witness :
    (sendTaskReminder true 1 "task one" "alice" 5 9
        Frequency.once 32400 c4state).1.tasks.filter
        (fun t => decide (t.id = 1) && t.isActive) = []
    ∧ (sendTaskReminder true 1 "task one" "alice" 5 9
        Frequency.once 32400 c4state).1.reminders
      = c4state.reminders ++
        [⟨c4state.nextReminderId, 1, 5, "alice", 9, "task one",
          Frequency.once, 32400 + 120, 0, 30⟩] := by
  have h := once_notification_deactivates 1 "task one" "alice" 5 9 32400
    c4state
  refine ⟨List.filter_eq_nil_iff.mpr ?_, h.2⟩
  intro t ht
  simp only [Bool.and_eq_true, decide_eq_true_eq, not_and]
  intro hid
  rw [(h.1 t ht hid).1]
  simp

/-- C3 (amended): in `task_bot.py`, when a DAILY task's initial notification
is sent, its `next_run` is set to exactly now plus 24 hours (not to the next
occurrence of its scheduled time-of-day) and `last_run` to now; the task
stays active and becomes due again once a tick reaches that instant. -/
theorem daily_notification_sets_next_run (taskId : Nat)
    (title username : String) (userId chatId now : Nat) (s : BotState)
    (hact : ∀ t ∈ s.tasks, t.id = taskId → t.isActive = true) :
    (∀ t ∈ (sendTaskReminder true taskId title username userId chatId
        Frequency.daily now s).1.tasks,
      t.id = taskId →
        t.isActive = true ∧ t.nextRun = some (now + 86400)
        ∧ t.lastRun = some now)
    ∧ (sendTaskReminder true taskId title username userId chatId
        Frequency.daily now s).1.reminders
      = s.reminders ++
        [⟨s.nextReminderId, taskId, userId, username, chatId, title,
          Frequency.daily, now + 120, 0, 30⟩] := by
  constructor
  · intro t ht htid
    simp only [sendTaskReminder, if_true, List.mem_map] at ht
    obtain ⟨t', ht', rfl⟩ := ht
    by_cases h : t'.id = taskId
    · simpa [h] using hact t' ht' h
    · simp only [h, if_false, ite_false] at htid ⊢
  · rfl

/-- Concrete state for the C3 counterexample: an active daily task scheduled
for 09:00 PST, due, with the tick arriving one minute late. -/
def c3state : BotState :=
  { tasks :=
      [⟨1, "task one", "alice", 5, 9, 9, 0, Frequency.daily, true, none,
        some 57600⟩],
    reminders := [],
    pending := [],
    responses := [],
    nextReminderId := 1 }

/-- Counterexample to C3 as stated: the tick at 09:01 PST sets the daily
task's `next_run` to tomorrow 09:01 (now + 24h = 144060), while the next
occurrence of the scheduled 09:00 time-of-day strictly after now — the value
`_calculate_next_run` would produce — is tomorrow 09:00 (144000). -/
theorem daily_notification_counterexample :
    (checkScheduledTasks (fun _ => true) (fun _ => true) 57660 c3state).1.tasks
      = [⟨1, "task one", "alice", 5, 9, 9, 0, Frequency.daily, true,
          some 57660, some 144060⟩]
    ∧ calculateNextRunTB 9 0 Frequency.daily 57660 = 144000
    ∧ (144060 : Nat) ≠ 144000 := by
  decide

/-- Witness for the amended C3 at a concrete input: the notified daily task
row stays active with `next_run` pushed exactly one day past the tick
instant, and the inserted reminder row is exactly the fresh one. -/
theorem daily_notification_sets_next_run_witness :
    (⟨1, "task one", "alice", 5, 9, 9, 0, Frequency.daily, true,
        some 57660, some 144060⟩ : Task)
      ∈ (sendTaskReminder true 1 "task one" "alice" 5 9
          Frequency.daily 57660 c3state).1.tasks
    ∧ (⟨1, "task one", "alice", 5, 9, 9, 0, Frequency.daily, true,
        some 57660, some 144060⟩ : Task).isActive = true
    ∧ (⟨1, "task one", "alice", 5, 9, 9, 0, Frequency.daily, true,
        some 57660, some 144060⟩ : Task).nextRun = some (57660 + 86400)
    ∧ (sendTaskReminder true 1 "task one" "alice" 5 9
        Frequency.daily 57660 c3state).1.reminders
      = c3state.reminders ++
        [⟨c3state.nextReminderId, 1, 5, "alice", 9, "task one",
          Frequency.daily, 57660 + 120, 0, 30⟩] := by
  have h := daily_notification_sets_next_run 1 "task one" "alice" 5 9 57660
    c3state (by decide)
  have hmem : (⟨1, "task one", "alice", 5, 9, 9, 0, Frequency.daily, true,
      some 57660, some 144060⟩ : Task)
      ∈ (sendTaskReminder true 1 "task one" "alice" 5 9
          Frequency.daily 57660 c3state).1.tasks := by decide
  exact ⟨hmem, (h.1 _ hmem rfl).1, (h.1 _ hmem rfl).2.1, h.2⟩

/-- Processing one due reminder row never touches the `tasks` table, the
pending index, or the id counter. -/
theorem processDueReminder_frame (gwRem : Nat → Bool) (now : Nat)
    (acc : BotState × List Msg) (r : Reminder) :
    (processDueReminder gwRem now acc r).1.tasks = acc.1.tasks
    ∧ (processDueReminder gwRem now acc r).1.pending = acc.1.pending
    ∧ (processDueReminder gwRem now acc r).1.nextReminderId
        = acc.1.nextReminderId := by
  unfold processDueReminder sendFollowupReminder
  split_ifs <;> exact ⟨rfl, rfl, rfl⟩

/-- Processing one due reminder row never inserts rows: every surviving row
descends from an existing one with the same primary key and task id. -/
theorem processDueReminder_rem_mem (gwRem : Nat → Bool) (now : Nat)
    (acc : BotState × List Msg) (r : Reminder) :
    ∀ x ∈ (processDueReminder gwRem now acc r).1.reminders,
      ∃ y ∈ acc.1.reminders, x.id = y.id ∧ x.taskId = y.taskId := by
  intro x hx
  unfold processDueReminder sendFollowupReminder at hx
  split_ifs at hx
  · exact ⟨x, (List.mem_filter.mp hx).1, rfl, rfl⟩
  · exact ⟨x, (List.mem_filter.mp hx).1, rfl, rfl⟩
  · exact ⟨x, (List.mem_filter.mp hx).1, rfl, rfl⟩
  · rcases List.mem_map.mp hx with ⟨y, hy, rfl⟩
    by_cases h : y.id = r.id
    · exact ⟨y, hy, by simp [h], by simp [h]⟩
    · exact ⟨y, hy, by simp [h], by simp [h]⟩
  · exact ⟨x, hx, rfl, rfl⟩

/-- Any message appended by processing one due reminder row refers to that
row's id. -/
theorem processDueReminder_msgs (gwRem : Nat → Bool) (now : Nat)
    (acc : BotState × List Msg) (r : Reminder) :
    ∀ m ∈ (processDueReminder gwRem now acc r).2,
      m ∈ acc.2 ∨ m = Msg.followup r.id r.taskId r.chatId r.reminderCount
        ∨ m = Msg.finalNotice r.id r.chatId := by
  intro m hm
  unfold processDueReminder sendFollowupReminder at hm
  split_ifs at hm
  · rcases List.mem_append.mp hm with h | h
    · exact Or.inl h
    · exact Or.inr (Or.inr (List.mem_singleton.mp h))
  · exact Or.inl hm
  · exact Or.inl hm
  · rcases List.mem_append.mp hm with h | h
    · exact Or.inl h
    · exact Or.inr (Or.inl (List.mem_singleton.mp h))
  · exact Or.inl (by simpa using hm)

/-- The property that task `tid` is dead: every `tasks` row carrying that id
is inactive and no reminder row belongs to it. -/
def taskDead (tid : Nat) (s : BotState) : Prop :=
  (∀ t ∈ s.tasks, t.id = tid → t.isActive = false)
  ∧ ∀ r ∈ s.reminders, r.taskId ≠ tid

/-- A single due-task step keeps a dead task dead, provided the notified
task is a different one. -/
theorem tickTaskStep_dead (tid : Nat) (gwT : Nat → Bool) (now : Nat)
    (acc : BotState × List Msg) (t : Task) (hne : t.id ≠ tid)
    (h : taskDead tid acc.1) : taskDead tid (tickTaskStep gwT now acc t).1 := by
  obtain ⟨ht, hr⟩ := h
  unfold tickTaskStep sendTaskReminder
  split
  · constructor
    · intro x hx hxid
      split at hx <;>
      · simp only [List.mem_map] at hx
        obtain ⟨x', hx', rfl⟩ := hx
        by_cases hc : x'.id = t.id
        · rw [if_pos hc] at hxid
          exact absurd (hc.symm.trans hxid) hne
        · rw [if_neg hc] at hxid
          rw [if_neg hc]
          exact ht x' hx' hxid
    · intro x hx
      split at hx <;>
      · rcases List.mem_append.mp hx with h | h
        · exact hr x h
        · simp only [List.mem_singleton] at h
          subst h
          exact hne
  · exact ⟨ht, hr⟩

/-- The due-task loop keeps a dead task dead when every snapshot row has a
different id. -/
theorem phase1_fold_dead (tid : Nat) (gwT : Nat → Bool) (now : Nat) :
    ∀ (L : List Task) (acc : BotState × List Msg),
      (∀ t ∈ L, t.id ≠ tid) → taskDead tid acc.1 →
      taskDead tid (L.foldl (tickTaskStep gwT now) acc).1 := by
  intro L
  induction L with
  | nil => intro acc _ h; exact h
  | cons t L ih =>
    intro acc hL h
    exact ih _ (fun x hx => hL x (List.mem_cons_of_mem _ hx))
      (tickTaskStep_dead tid gwT now acc t (hL t (List.mem_cons_self _ _)) h)

/-- The due-reminder loop keeps a dead task dead. -/
theorem phase2_fold_dead (tid : Nat) (gwRem : Nat → Bool) (now : Nat) :
    ∀ (rows : List Reminder) (acc : BotState × List Msg),
      taskDead tid acc.1 →
      taskDead tid (rows.foldl (processDueReminder gwRem now) acc).1 := by
  intro rows
  induction rows with
  | nil => intro acc h; exact h
  | cons r rows ih =>
    intro acc h
    refine ih _ ⟨?_, ?_⟩
    · intro x hx
      rw [(processDueReminder_frame gwRem now acc r).1] at hx
      exact h.1 x hx
    · intro x hx
      obtain ⟨y, hy, _, hxy⟩ := processDueReminder_rem_mem gwRem now acc r x hx
      rw [hxy]
      exact h.2 y hy

/-- One scheduler tick keeps a dead task dead. -/
theorem checkScheduledTasks_dead (tid : Nat) (gwT gwRem : Nat → Bool)
    (now : Nat) (s : BotState) (h : taskDead tid s) :
    taskDead tid (checkScheduledTasks gwT gwRem now s).1 := by
  unfold checkScheduledTasks
  refine phase2_fold_dead tid gwRem now _ _ ?_
  refine phase1_fold_dead tid gwT now _ _ ?_ h
  intro t ht
  have hmem := List.mem_filter.mp ht
  intro hcontra
  have hact : t.isActive = false := h.1 t hmem.1 hcontra
  have hdue := hmem.2
  unfold dueTask at hdue
  rw [hact] at hdue
  simp at hdue

/-- Any sequence of scheduler ticks keeps a dead task dead. -/
theorem applyTicks_dead (tid : Nat) (ticks : List TickArgs) (s : BotState)
    (h : taskDead tid s) : taskDead tid (applyTicks ticks s).1 := by
  unfold applyTicks
  suffices hgen : ∀ (L : List TickArgs) (acc : BotState × List Msg),
      taskDead tid acc.1 → taskDead tid (L.foldl tickStep acc).1 by
    exact hgen ticks (s, []) h
  intro L
  induction L with
  | nil => intro acc h; exact h
  | cons a L ih =>
    intro acc h
    exact ih _ (checkScheduledTasks_dead tid a.gwT a.gwRem a.now acc.1 h)

/-- C1: for a ONCE task, applying a DONE (`yes`) response deactivates the
task (`is_active = 0`, the code's terminal COMPLETED representation, reached
here through the completion path and not through `/removetask`) and deletes
every reminder row of the task, and both facts persist through any number of
subsequent scheduler ticks. -/
theorem once_done_completed_stable
    (s : BotState) (u c taskId now : Nat) (info : PendingInfo)
    (ticks : List TickArgs)
    (hlk : lookupPending s.pending (PKey.user u c) = some info)
    (hti : info.taskId = taskId)
    (hfr : info.frequency = Frequency.once)
    (hrem : ∀ r ∈ s.reminders, r.taskId = taskId → r.userId = u ∧ r.chatId = c) :
    taskDead taskId (handleCallbackQuery u c taskId Resp.yes now s).1
    ∧ taskDead taskId
        (applyTicks ticks (handleCallbackQuery u c taskId Resp.yes now s).1).1 := by
  have h1 : taskDead taskId (handleCallbackQuery u c taskId Resp.yes now s).1 := by
    simp only [handleCallbackQuery, applyResponse, hlk, hti, hfr, ne_eq,
      not_true_eq_false, if_false, ite_false]
    constructor
    · intro t ht htid
      simp only [updateNextRun, cleanupStaleReminders, List.mem_map] at ht
      obtain ⟨t', ht', rfl⟩ := ht
      by_cases h : t'.id = taskId
      · simp [h]
      · simp only [h, if_false, ite_false] at htid ⊢
    · intro r hr
      simp only [updateNextRun, cleanupStaleReminders] at hr
      have hr1 := (List.mem_filter.mp hr).1
      have hr2 := (List.mem_filter.mp hr1).2
      simp only [decide_eq_true_eq] at hr2
      intro hcontra
      exact hr2 (hrem r (List.mem_filter.mp hr1).1 hcontra)
  exact ⟨h1, applyTicks_dead taskId ticks _ h1⟩

/-- Concrete state for the C1 witness: user 5 in chat 9 owes a response for
the active once task 1 whose reminder row is live. -/
def c1state : BotState :=
  { tasks :=
      [⟨1, "task one", "alice", 5, 9, 9, 0, Frequency.once, true,
        some 32400, some 32400⟩],
    reminders := [⟨1, 1, 5, "alice", 9, "task one", Frequency.once, 150, 2, 30⟩],
    pending := [(PKey.user 5 9, ⟨1, "task one", "alice", 5, 9, Frequency.once⟩)],
    responses := [],
    nextReminderId := 2 }

/-- Witness for C1 at a concrete state, with one concrete subsequent tick:
no active row with id 1 and no reminder row of task 1 survives, neither
right after the DONE nor after the tick. -/
theorem once_done_completed_stable_witness :
    lookupPending c1state.pending (PKey.user 5 9)
      = some ⟨1, "task one", "alice", 5, 9, Frequency.once⟩
    ∧ (handleCallbackQuery 5 9 1 Resp.yes 200 c1state).1.tasks.filter
        (fun t => decide (t.id = 1) && t.isActive) = []
    ∧ (handleCallbackQuery 5 9 1 Resp.yes 200 c1state).1.reminders.filter
        (fun r => decide (r.taskId = 1)) = []
    ∧ (applyTicks [⟨fun _ => true, fun _ => true, 100000⟩]
        (handleCallbackQuery 5 9 1 Resp.yes 200 c1state).1).1.tasks.filter
        (fun t => decide (t.id = 1) && t.isActive) = []
    ∧ (applyTicks [⟨fun _ => true, fun _ => true, 100000⟩]
        (handleCallbackQuery 5 9 1 Resp.yes 200 c1state).1).1.reminders.filter
        (fun r => decide (r.taskId = 1)) = [] := by
  have h := once_done_completed_stable c1state 5 9 1 200
    ⟨1, "task one", "alice", 5, 9, Frequency.once⟩
    [⟨fun _ => true, fun _ => true, 100000⟩]
    (by decide) rfl rfl (by decide)
  refine ⟨by decide, List.filter_eq_nil_iff.mpr ?_, List.filter_eq_nil_iff.mpr ?_,
    List.filter_eq_nil_iff.mpr ?_, List.filter_eq_nil_iff.mpr ?_⟩
  · intro t ht
    simp only [Bool.and_eq_true, decide_eq_true_eq, not_and]
    intro hid
    rw [h.1.1 t ht hid]
    simp
  · intro r hr
    simpa using h.1.2 r hr
  · intro t ht
    simp only [Bool.and_eq_true, decide_eq_true_eq, not_and]
    intro hid
    rw [h.2.1 t ht hid]
    simp
  · intro r hr
    simpa using h.2.2 r hr

/-- C7 (amended): in `task_bot.py`, a NOT_DONE (`no`) response inserts a
fresh `pending_reminders` row at the fixed count 1 due in 2 minutes —
`INSERT OR REPLACE` cannot key on the task because the table has no
uniqueness constraint there — leaving any existing rows untouched rather
than incrementing them; the `pending_responses` entry of the assignee is
not removed. -/
theorem not_done_inserts_fresh_reminder
    (s : BotState) (u c taskId now : Nat) (info : PendingInfo)
    (hlk : lookupPending s.pending (PKey.user u c) = some info)
    (hti : info.taskId = taskId) :
    (handleCallbackQuery u c taskId Resp.no now s).1.reminders
      = s.reminders ++
        [⟨s.nextReminderId, taskId, u, info.username, c, info.title,
          info.frequency, now + 120, 1, 30⟩]
    ∧ lookupPending (handleCallbackQuery u c taskId Resp.no now s).1.pending
        (PKey.user u c) = some info
    ∧ (handleCallbackQuery u c taskId Resp.no now s).2
        = Outcome.applied Resp.no := by
  simp [handleCallbackQuery, hlk, applyResponse, hti]

/-- Concrete state for C7: user 5 in chat 9 already has a reminder row at
count 5 for task 1 and is awaiting a response. -/
def c7state : BotState :=
  { tasks := [],
    reminders := [⟨1, 1, 5, "alice", 9, "task one", Frequency.daily, 150, 5, 30⟩],
    pending := [(PKey.user 5 9, ⟨1, "task one", "alice", 5, 9, Frequency.daily⟩)],
    responses := [],
    nextReminderId := 2 }

/-- Counterexample to C7 as stated: after NOT_DONE the existing row still
has count 5, no row has count 6, and a second row for the same task exists
at count 1. -/
theorem not_done_counterexample :
    (handleCallbackQuery 5 9 1 Resp.no 1000 c7state).1.reminders
      = [⟨1, 1, 5, "alice", 9, "task one", Frequency.daily, 150, 5, 30⟩,
         ⟨2, 1, 5, "alice", 9, "task one", Frequency.daily, 1120, 1, 30⟩]
    ∧ ∀ r ∈ (handleCallbackQuery 5 9 1 Resp.no 1000 c7state).1.reminders,
        r.reminderCount ≠ 6 := by
  decide

/-- Witness for the amended C7 at the concrete state. -/
theorem not_done_inserts_fresh_reminder_witness :
    (handleCallbackQuery 5 9 1 Resp.no 1000 c7state).1.reminders
      = c7state.reminders ++
        [⟨c7state.nextReminderId, 1, 5, "alice", 9, "task one",
          Frequency.daily, 1000 + 120, 1, 30⟩]
    ∧ lookupPending (handleCallbackQuery 5 9 1 Resp.no 1000 c7state).1.pending
        (PKey.user 5 9)
      = some ⟨1, "task one", "alice", 5, 9, Frequency.daily⟩
    ∧ (handleCallbackQuery 5 9 1 Resp.no 1000 c7state).2
        = Outcome.applied Resp.no :=
  not_done_inserts_fresh_reminder c7state 5 9 1 1000
    ⟨1, "task one", "alice", 5, 9, Frequency.daily⟩ (by decide) rfl

/-- C5 (amended): a failed gateway send leaves all persisted state unchanged
for initial notifications and follow-up reminders, so those sends are
retried with identical state on the next tick; the final notice however
deletes its `pending_reminders` row before the send is attempted, so a
failed final-notice send still deletes the row and is never retried. -/
theorem gateway_failure_behavior :
    (∀ (taskId : Nat) (title username : String) (userId chatId : Nat)
        (freq : Frequency) (now : Nat) (s : BotState),
      sendTaskReminder false taskId title username userId chatId freq now s
        = (s, []))
    ∧ (∀ (reminderId taskId chatId count now : Nat) (s : BotState),
      sendFollowupReminder false reminderId taskId chatId count now s
        = (s, []))
    ∧ ∀ (gwRem : Nat → Bool) (now : Nat) (acc : BotState × List Msg)
        (r : Reminder),
      r.maxReminders ≤ r.reminderCount → gwRem r.id = false →
      processDueReminder gwRem now acc r
        = ({ acc.1 with
              reminders := acc.1.reminders.filter fun x => decide (x.id ≠ r.id) },
           acc.2) := by
  refine ⟨fun _ _ _ _ _ _ _ _ => rfl, fun _ _ _ _ _ _ => rfl, ?_⟩
  intro gwRem now acc r h1 h2
  unfold processDueReminder
  rw [if_pos h1, if_neg (by simp [h2])]

/-- Concrete state for the C5 counterexample: a single maxed-out due
reminder row. -/
def c5state : BotState :=
  { tasks := [],
    reminders := [⟨1, 1, 5, "alice", 9, "task one", Frequency.once, 100, 30, 30⟩],
    pending := [],
    responses := [],
    nextReminderId := 2 }

/-- Counterexample to C5 as stated: with the gateway failing every send, the
tick still deletes the maxed-out reminder row — persisted reminder state
does change on a failed final-notice send, and nothing is delivered. -/
theorem gateway_failure_counterexample :
    (checkScheduledTasks (fun _ => false) (fun _ => false) 1000 c5state).1.reminders
      = []
    ∧ (checkScheduledTasks (fun _ => false) (fun _ => false) 1000 c5state).2
      = [] := by
  decide

/-- Witness for the amended C5 at concrete inputs. -/
theorem gateway_failure_behavior_witness :
    sendTaskReminder false 1 "task one" "alice" 5 9 Frequency.once 1000 c5state
      = (c5state, [])
    ∧ sendFollowupReminder false 1 1 9 3 1000 c5state = (c5state, [])
    ∧ processDueReminder (fun _ => false) 1000 (c5state, [])
        ⟨1, 1, 5, "alice", 9, "task one", Frequency.once, 100, 30, 30⟩
      = ({ c5state with
            reminders := c5state.reminders.filter fun x => decide (x.id ≠ 1) },
         []) :=
  ⟨gateway_failure_behavior.1 1 "task one" "alice" 5 9 Frequency.once 1000
     c5state,
   gateway_failure_behavior.2.1 1 1 9 3 1000 c5state,
   gateway_failure_behavior.2.2 (fun _ => false) 1000 (c5state, [])
     ⟨1, 1, 5, "alice", 9, "task one", Frequency.once, 100, 30, 30⟩
     (by decide) rfl⟩

/-- Concrete state for C9: two minutes after the initial notification, user
5 in chat 9 has not answered, so the assignee's entry is still present in
`pending_responses` and the count-0 reminder row is due. -/
def c9state : BotState :=
  { tasks := [],
    reminders := [⟨1, 1, 5, "alice", 9, "task one", Frequency.once, 100, 0, 30⟩],
    pending := [(PKey.user 5 9, ⟨1, "task one", "alice", 5, 9, Frequency.once⟩)],
    responses := [],
    nextReminderId := 2 }

/-- The same state with the in-memory pending entry absent (as after a
process restart). -/
def c9stateNoPending : BotState :=
  { tasks := [],
    reminders := [⟨1, 1, 5, "alice", 9, "task one", Frequency.once, 100, 0, 30⟩],
    pending := [],
    responses := [],
    nextReminderId := 2 }

/-- C9, evaluated on the failing input: with the assignee still awaiting
(pending entry present) and the reminder due below the maximum, the tick
deletes the row and sends nothing — the promised follow-up never goes out —
whereas with the entry absent the follow-up is sent and the row advanced.
The code's polarity is the inverse of the claimed one. -/
theorem followup_skip_polarity_inverted :
    containsPending c9state.pending (PKey.user 5 9) = true
    ∧ (checkScheduledTasks (fun _ => true) (fun _ => true) 1000 c9state).1.reminders
        = []
    ∧ (checkScheduledTasks (fun _ => true) (fun _ => true) 1000 c9state).2 = []
    ∧ containsPending c9stateNoPending.pending (PKey.user 5 9) = false
    ∧ (checkScheduledTasks (fun _ => true) (fun _ => true) 1000
        c9stateNoPending).1.reminders
      = [⟨1, 1, 5, "alice", 9, "task one", Frequency.once, 1120, 1, 30⟩]
    ∧ (checkScheduledTasks (fun _ => true) (fun _ => true) 1000
        c9stateNoPending).2
      = [Msg.followup 1 1 9 0] := by
  decide

/-- Whether a delivered message is a reminder (follow-up or final notice)
built from the `pending_reminders` row with id `i`. -/
def mentionsReminder (m : Msg) (i : Nat) : Bool :=
  match m with
  | .initialReminder _ _ => false
  | .followup j _ _ _ => decide (j = i)
  | .finalNotice j _ => decide (j = i)

/-- The property that reminder row id `i` is gone for good: no row carries
it and the autoincrement counter is already past it. -/
def reminderGone (i : Nat) (s : BotState) : Prop :=
  (∀ x ∈ s.reminders, x.id ≠ i) ∧ i < s.nextReminderId

/-- A due-task step preserves `reminderGone` and emits no reminder message:
the row it inserts receives the fresh counter value, which is beyond `i`. -/
theorem tickTaskStep_gone (i : Nat) (gwT : Nat → Bool) (now : Nat)
    (acc : BotState × List Msg) (t : Task) (h : reminderGone i acc.1) :
    reminderGone i (tickTaskStep gwT now acc t).1
    ∧ ∀ m ∈ (tickTaskStep gwT now acc t).2,
        mentionsReminder m i = false ∨ m ∈ acc.2 := by
  obtain ⟨hA, hB⟩ := h
  unfold tickTaskStep sendTaskReminder
  split
  · refine ⟨⟨?_, ?_⟩, ?_⟩
    · intro x hx
      split at hx <;>
      · rcases List.mem_append.mp hx with h | h
        · exact hA x h
        · simp only [List.mem_singleton] at h
          subst h
          exact Nat.ne_of_gt hB
    · show i < _
      split <;> exact Nat.lt_succ_of_lt hB
    · intro m hm
      rcases List.mem_append.mp hm with h | h
      · exact Or.inr h
      · simp only [List.mem_singleton] at h
        subst h
        exact Or.inl rfl
  · refine ⟨⟨hA, hB⟩, ?_⟩
    intro m hm
    exact Or.inr (by simpa using hm)

/-- The due-task loop preserves `reminderGone` and only ever adds the
initial-notification messages, which are not reminder messages. -/
theorem phase1_fold_gone (i : Nat) (gwT : Nat → Bool) (now : Nat) :
    ∀ (L : List Task) (acc : BotState × List Msg),
      reminderGone i acc.1 →
      (∀ m ∈ acc.2, mentionsReminder m i = false) →
      reminderGone i (L.foldl (tickTaskStep gwT now) acc).1
      ∧ ∀ m ∈ (L.foldl (tickTaskStep gwT now) acc).2,
          mentionsReminder m i = false := by
  intro L
  induction L with
  | nil => intro acc h hm; exact ⟨h, hm⟩
  | cons t L ih =>
    intro acc h hm
    obtain ⟨h1, h2⟩ := tickTaskStep_gone i gwT now acc t h
    refine ih _ h1 ?_
    intro m hmem
    rcases h2 m hmem with hfalse | hold
    · exact hfalse
    · exact hm m hold

/-- The due-reminder loop preserves `reminderGone` and, when every snapshot
row has an id other than `i`, adds no message mentioning `i`. -/
theorem phase2_fold_gone (i : Nat) (gwRem : Nat → Bool) (now : Nat) :
    ∀ (rows : List Reminder) (acc : BotState × List Msg),
      (∀ r ∈ rows, r.id ≠ i) →
      reminderGone i acc.1 →
      (∀ m ∈ acc.2, mentionsReminder m i = false) →
      reminderGone i (rows.foldl (processDueReminder gwRem now) acc).1
      ∧ ∀ m ∈ (rows.foldl (processDueReminder gwRem now) acc).2,
          mentionsReminder m i = false := by
  intro rows
  induction rows with
  | nil => intro acc _ h hm; exact ⟨h, hm⟩
  | cons r rows ih =>
    intro acc hrows h hm
    have hne : r.id ≠ i := hrows r (List.mem_cons_self _ _)
    refine ih _ (fun x hx => hrows x (List.mem_cons_of_mem _ hx)) ⟨?_, ?_⟩ ?_
    · intro x hx
      obtain ⟨y, hy, hid, _⟩ := processDueReminder_rem_mem gwRem now acc r x hx
      rw [hid]
      exact h.1 y hy
    · rw [(processDueReminder_frame gwRem now acc r).2.2]
      exact h.2
    · intro m hmem
      rcases processDueReminder_msgs gwRem now acc r m hmem with hold | hf | hf
      · exact hm m hold
      · subst hf
        simp [mentionsReminder, hne]
      · subst hf
        simp [mentionsReminder, hne]

/-- One scheduler tick preserves `reminderGone` and delivers no message
mentioning the dead row id. -/
theorem checkScheduledTasks_gone (i : Nat) (gwT gwRem : Nat → Bool)
    (now : Nat) (s : BotState) (h : reminderGone i s) :
    reminderGone i (checkScheduledTasks gwT gwRem now s).1
    ∧ ∀ m ∈ (checkScheduledTasks gwT gwRem now s).2,
        mentionsReminder m i = false := by
  unfold checkScheduledTasks
  have hp1 := phase1_fold_gone i gwT now (s.tasks.filter (dueTask now))
    (s, []) h (by intro m hm; simp at hm)
  refine phase2_fold_gone i gwRem now _ _ ?_ hp1.1 hp1.2
  intro r hr
  exact hp1.1.1 r (List.mem_filter.mp hr).1

/-- Any sequence of scheduler ticks preserves `reminderGone` and never again
delivers a message mentioning the dead row id. -/
theorem applyTicks_gone (i : Nat) (ticks : List TickArgs) (s : BotState)
    (h : reminderGone i s) :
    reminderGone i (applyTicks ticks s).1
    ∧ ∀ m ∈ (applyTicks ticks s).2, mentionsReminder m i = false := by
  unfold applyTicks
  suffices hgen : ∀ (L : List TickArgs) (acc : BotState × List Msg),
      reminderGone i acc.1 →
      (∀ m ∈ acc.2, mentionsReminder m i = false) →
      reminderGone i (L.foldl tickStep acc).1
      ∧ ∀ m ∈ (L.foldl tickStep acc).2, mentionsReminder m i = false by
    exact hgen ticks (s, []) h (by intro m hm; simp at hm)
  intro L
  induction L with
  | nil => intro acc h hm; exact ⟨h, hm⟩
  | cons a L ih =>
    intro acc h hm
    obtain ⟨h1, h2⟩ := checkScheduledTasks_gone i a.gwT a.gwRem a.now acc.1 h
    refine ih _ h1 ?_
    intro m hmem
    rcases List.mem_append.mp hmem with hold | hnew
    · exact hm m hold
    · exact h2 m hnew

/-- C6 (amended): when a due reminder row has reached its maximum count and
the gateway send succeeds, the tick deletes the row and appends exactly one
final-notice message (never a regular follow-up), leaving the `tasks` table,
the pending index and everything else untouched — so a still-ACTIVE owner
stays ACTIVE, while in `task_bot.py` the owner of a ONCE task, already
deactivated at its initial notification, stays inactive; afterwards, once no
row carries the id and the id counter is past it, no subsequent tick ever
delivers a follow-up or final notice built from that row again. -/
theorem final_notice_once_then_silent (gwRem : Nat → Bool) (now : Nat)
    (s : BotState) (ms : List Msg) (r : Reminder)
    (hcnt : r.maxReminders ≤ r.reminderCount) (hgw : gwRem r.id = true) :
    processDueReminder gwRem now (s, ms) r
      = ({ s with
            reminders := s.reminders.filter fun x => decide (x.id ≠ r.id) },
         ms ++ [Msg.finalNotice r.id r.chatId])
    ∧ ∀ (s2 : BotState) (ticks : List TickArgs),
        (∀ x ∈ s2.reminders, x.id ≠ r.id) → r.id < s2.nextReminderId →
        (∀ x ∈ (applyTicks ticks s2).1.reminders, x.id ≠ r.id)
        ∧ ∀ m ∈ (applyTicks ticks s2).2, mentionsReminder m r.id = false := by
  constructor
  · unfold processDueReminder
    rw [if_pos hcnt, if_pos hgw]
  · intro s2 ticks hA hB
    obtain ⟨⟨h1, _⟩, h2⟩ := applyTicks_gone r.id ticks s2 ⟨hA, hB⟩
    exact ⟨h1, h2⟩

/-- Concrete state for C6: in `task_bot.py` a ONCE task that was notified
(hence already inactive) whose reminder row has reached the maximum count
and is due. -/
def c6state : BotState :=
  { tasks :=
      [⟨1, "task one", "alice", 5, 9, 9, 0, Frequency.once, false,
        some 32400, some 32400⟩],
    reminders := [⟨1, 1, 5, "alice", 9, "task one", Frequency.once, 100, 30, 30⟩],
    pending := [],
    responses := [],
    nextReminderId := 2 }

/-- Counterexample to C6 as stated: the final-notice tick sends the final
notice and deletes the row, but the owning ONCE task is not left ACTIVE —
its `is_active` is 0 (and was already 0 since the initial notification). -/
theorem final_notice_counterexample :
    (checkScheduledTasks (fun _ => true) (fun _ => true) 1000 c6state).2
      = [Msg.finalNotice 1 9]
    ∧ (checkScheduledTasks (fun _ => true) (fun _ => true) 1000
        c6state).1.reminders = []
    ∧ ∀ t ∈ (checkScheduledTasks (fun _ => true) (fun _ => true) 1000
        c6state).1.tasks, ¬(t.isActive = true) := by
  decide

/-- Witness for the amended C6 at concrete inputs: the final-notice step on
the maxed-out row yields exactly one final notice and the row's deletion,
and after one concrete subsequent tick from the resulting state no row with
that id exists and no message mentions it. -/
theorem final_notice_once_then_silent_witness :
    processDueReminder (fun _ => true) 1000 (c6state, [])
        ⟨1, 1, 5, "alice", 9, "task one", Frequency.once, 100, 30, 30⟩
      = ({ c6state with
            reminders := c6state.reminders.filter fun x => decide (x.id ≠ 1) },
         [Msg.finalNotice 1 9])
    ∧ (applyTicks [⟨fun _ => true, fun _ => true, 100000⟩]
        { c6state with reminders := [] }).1.reminders.filter
        (fun x => decide (x.id = 1)) = []
    ∧ (applyTicks [⟨fun _ => true, fun _ => true, 100000⟩]
        { c6state with reminders := [] }).2.filter
        (fun m => mentionsReminder m 1) = [] := by
  have h := final_notice_once_then_silent (fun _ => true) 1000 c6state []
    ⟨1, 1, 5, "alice", 9, "task one", Frequency.once, 100, 30, 30⟩
    (by decide) rfl
  have h2 := h.2 { c6state with reminders := [] }
    [⟨fun _ => true, fun _ => true, 100000⟩]
    (by intro x hx; simp at hx) (by decide)
  refine ⟨h.1, List.filter_eq_nil_iff.mpr ?_, List.filter_eq_nil_iff.mpr ?_⟩
  · intro x hx
    simpa using h2.1 x hx
  · intro m hm
    simp [h2.2 m hm]

end TaskBot
